import Mathlib

/-!
Verification development for the FIB path subsystem (src/vnet/vnet/fib/fib_path.c).

The data model and every operation below are translated from the C source.
External collaborators that are not part of the source file (DPO layer,
adjacency layer, FIB entry/table, interface oracle) are modelled as an
explicit environment record of oracle functions, matching the interfaces
the source calls. Machine integers (u32 indices, weights, labels) are
modelled as Nat with the 0xffffffff sentinel kept explicit.
-/

/-- Address family of a next-hop, from fib_protocol_t (fib_types.h ordering
IP4 = 0, IP6 = 1, MPLS = 2). -/
inductive fib_protocol_t
| IP4
| IP6
| MPLS
deriving DecidableEq, Repr

/-- Numeric value of the protocol enum, used where the C code subtracts
enum values to produce a comparison result. -/
def fib_protocol_val : fib_protocol_t -> Int
| .IP4 => 0
| .IP6 => 1
| .MPLS => 2

/-- vnet_link_t, the link types the path code requests adjacencies for. -/
inductive vnet_link_t
| ip4
| ip6
| mpls
| ethernet
deriving DecidableEq, Repr

/-- ip46_address_t: a 16-byte address, stored in the C union as two u64
words (as_u64[0], as_u64[1]). -/
structure Ip46 where
  w0 : Nat
  w1 : Nat
deriving DecidableEq, Repr

/-- The all-zeros address (zero_addr in the source). -/
def zero_addr : Ip46 := { w0 := 0, w1 := 0 }

/-- ip46_address_is_zero: every byte of the address is zero. -/
def ip46_address_is_zero (a : Ip46) : Bool :=
  a.w0 == 0 && a.w1 == 0

/-- Modelled from the spec: ip46_address_cmp (the comparison helper lives in
the ip headers, outside src/). The spec orders addresses lexicographically;
the result is 0 exactly when the addresses are byte-equal. -/
def ip46_address_cmp (a b : Ip46) : Int :=
  if a.w0 < b.w0 then -1
  else if b.w0 < a.w0 then 1
  else if a.w1 < b.w1 then -1
  else if b.w1 < a.w1 then 1
  else 0

/-- The u32 all-ones sentinel (~0) used for absent interfaces, tables and
node indices (FIB_NODE_INDEX_INVALID). -/
def FIB_NODE_INDEX_INVALID : Nat := 4294967295

/-- Modelled from the spec: FIB_SOURCE_RR, the lowest-priority FIB source
(fib_entry.h is outside src/). Only its position in the numeric source
ordering matters: the code compares best_source >= FIB_SOURCE_RR. -/
def FIB_SOURCE_RR : Nat := 14

/-- Modelled from the spec: dpo_type_t tags for the DPO handles this file
manipulates. dpo_invalid is DPO_FIRST = 0, the tag of a reset DPO. -/
inductive dpo_type_t
| dpo_invalid
| drop
| adjacency
| adjacency_glean
| lookup
| receive_dpo
| load_balance
deriving DecidableEq, Repr

/-- Modelled from the spec: dpo_proto_t, the per-protocol variants. -/
inductive dpo_proto_t
| ip4
| ip6
| mpls
| ethernet
deriving DecidableEq, Repr

/-- Modelled from the spec: dpo_id_t, an opaque tagged handle for a
forwarding action: a type tag, a protocol and an index. -/
structure dpo_id_t where
  dpoi_type : dpo_type_t
  dpoi_proto : dpo_proto_t
  dpoi_index : Nat
deriving DecidableEq, Repr

/-- Modelled from the spec: the reset (all-zeroed) DPO, DPO_INVALID. -/
def DPO_INVALID : dpo_id_t :=
  { dpoi_type := .dpo_invalid, dpoi_proto := .ip4, dpoi_index := 0 }

/-- Modelled from the spec: dpo_id_is_valid, true for any DPO that has been
set since its last reset. -/
def dpo_id_is_valid (d : dpo_id_t) : Bool :=
  d.dpoi_type != .dpo_invalid

/-- fib_proto_to_dpo. -/
def fib_proto_to_dpo : fib_protocol_t -> dpo_proto_t
| .IP4 => .ip4
| .IP6 => .ip6
| .MPLS => .mpls

/-- fib_proto_to_link. -/
def fib_proto_to_link : fib_protocol_t -> vnet_link_t
| .IP4 => .ip4
| .IP6 => .ip6
| .MPLS => .mpls

/-- Modelled from the spec: drop_dpo_get, the per-protocol drop DPO
(drop_dpo.c is outside src/). -/
def drop_dpo_get (proto : dpo_proto_t) : dpo_id_t :=
  { dpoi_type := .drop, dpoi_proto := proto, dpoi_index := 0 }

/-- fib_forward_chain_type_t: the protocol profile a forwarding DPO is
requested for. -/
inductive fib_forward_chain_type_t
| unicast_ip4
| unicast_ip6
| mpls_eos
| mpls_non_eos
| ethernet
deriving DecidableEq, Repr

/-- fib_path_proto_to_chain_type. -/
def fib_path_proto_to_chain_type : fib_protocol_t -> fib_forward_chain_type_t
| .IP4 => .unicast_ip4
| .IP6 => .unicast_ip6
| .MPLS => .mpls_non_eos

/-- Modelled from the spec: fib_path_cfg_flags_t (fib_path.h is outside
src/): the set over DROP, LOCAL, RESOLVE_HOST, RESOLVE_ATTACHED. -/
structure fib_path_cfg_flags_t where
  drop : Bool := false
  cfg_local : Bool := false
  resolve_host : Bool := false
  resolve_attached : Bool := false
deriving DecidableEq, Repr

/-- Bitwise-or of two cfg flag sets. -/
def fib_path_cfg_flags_or (a b : fib_path_cfg_flags_t) : fib_path_cfg_flags_t :=
  { drop := a.drop || b.drop,
    cfg_local := a.cfg_local || b.cfg_local,
    resolve_host := a.resolve_host || b.resolve_host,
    resolve_attached := a.resolve_attached || b.resolve_attached }

/-- fib_path_oper_flags_t: RECURSIVE_LOOP, RESOLVED, DROP (from the enum in
fib_path.c). -/
structure fib_path_oper_flags_t where
  recursive_loop : Bool := false
  resolved : Bool := false
  drop : Bool := false
deriving DecidableEq, Repr

/-- The union of an ip46 next-hop address and an MPLS local label
(recursive.fp_nh in fib_path_t, and the frp_addr/frp_local_label union of
fib_route_path_t). The two arms overlay in memory; the 32-bit label
occupies the first bytes of the 16-byte address. -/
inductive fib_path_nh_t
| ip (addr : Ip46)
| local_label (l : Nat)
deriving DecidableEq, Repr

/-- Read the next-hop union through its ip46 arm. Reading a stored label
through the address arm yields the label overlaid on a zeroed address. -/
def fib_path_nh_as_addr : fib_path_nh_t -> Ip46
| .ip a => a
| .local_label l => { w0 := l, w1 := 0 }

/-- Read the next-hop union through its label arm. Reading a stored address
through the label arm yields the low 32 bits of the first word. -/
def fib_path_nh_as_label : fib_path_nh_t -> Nat
| .ip a => a.w0 % 4294967296
| .local_label l => l

/-- ip46_address_is_zero applied to the next-hop union read as an address:
this is how fib_path_create tests the union. -/
def fib_path_nh_is_zero_addr (nh : fib_path_nh_t) : Bool :=
  ip46_address_is_zero (fib_path_nh_as_addr nh)

/-- fib_path_type_t: the discriminator of the per-type union, in the C enum
order (attached-nexthop = 0 ... receive = 6). -/
inductive fib_path_type_t
| attached_next_hop
| attached
| recursive
| special
| exclusive
| deag
| receive
deriving DecidableEq, Repr

/-- Numeric value of the path type enum. -/
def fib_path_type_val : fib_path_type_t -> Int
| .attached_next_hop => 0
| .attached => 1
| .recursive => 2
| .special => 3
| .exclusive => 4
| .deag => 5
| .receive => 6

/-- The per-type union of fib_path_t, as a sum indexed by the same
discriminator the C code stores in fp_type. -/
inductive fib_path_payload_t
| attached_next_hop (fp_nh : Ip46) (fp_interface : Nat)
| attached (fp_interface : Nat)
| recursive (fp_nh : fib_path_nh_t) (fp_tbl_id : Nat)
| special
| exclusive (fp_ex_dpo : dpo_id_t)
| deag (fp_tbl_id : Nat)
| receive (fp_interface : Nat) (fp_addr : Ip46)
deriving DecidableEq, Repr

/-- fib_path_t. The configuration half (cfg_flags, type, nh_proto, weight,
union) is followed by the derived half (oper_flags, via_fib, dpo, sibling).
fp_type is carried by the payload tag; the C code always writes the two
together. -/
structure fib_path_t where
  fp_pl_index : Nat
  fp_cfg_flags : fib_path_cfg_flags_t
  fp_nh_proto : fib_protocol_t
  fp_weight : Nat
  fp_payload : fib_path_payload_t
  fp_oper_flags : fib_path_oper_flags_t
  fp_via_fib : Nat
  fp_dpo : dpo_id_t
  fp_sibling : Nat
deriving DecidableEq, Repr

/-- fp_type: the discriminator, read off the union tag. -/
def fib_path_t.fp_type (p : fib_path_t) : fib_path_type_t :=
  match p.fp_payload with
  | .attached_next_hop _ _ => .attached_next_hop
  | .attached _ => .attached
  | .recursive _ _ => .recursive
  | .special => .special
  | .exclusive _ => .exclusive
  | .deag _ => .deag
  | .receive _ _ => .receive

/-- fib_route_path_t (fib_types.h, outside src/), modelled from the spec
and from the fields fib_path.c reads: proto, the addr/label union, the
interface, the fib index, the weight and the two RESOLVE_VIA flags. -/
structure fib_route_path_t where
  frp_proto : fib_protocol_t
  frp_nh : fib_path_nh_t
  frp_sw_if_index : Nat
  frp_fib_index : Nat
  frp_weight : Nat
  frp_resolve_via_host : Bool := false
  frp_resolve_via_attached : Bool := false
deriving DecidableEq, Repr

/-- fib_prefix_t as far as this file builds one: from an ip46 address
(fib_prefix_from_ip46_addr) or from an MPLS label
(fib_prefix_from_mpls_label). -/
inductive fib_pfx_t
| ip46 (a : Ip46)
| mpls (l : Nat)
deriving DecidableEq, Repr

/-- The environment of external collaborators the source calls into:
interface oracle, adjacency layer, FIB entry and table, receive DPO
allocator. Each field mirrors one external function, with state-carrying
side effects reduced to the values the path code consumes. -/
structure fib_ext_env where
  sw_interface_is_p2p : Nat -> Bool
  sw_interface_is_admin_up : Nat -> Bool
  sw_interface_compare : Nat -> Nat -> Int
  adj_nbr_add_or_lock : fib_protocol_t -> vnet_link_t -> Ip46 -> Nat -> Nat
  adj_glean_add_or_lock : fib_protocol_t -> Nat -> Nat
  adj_child_add : Nat -> Nat
  entry_child_add : Nat -> Nat
  entry_contribute_forwarding : Nat -> fib_forward_chain_type_t -> dpo_id_t
  entry_get_best_source : Nat -> Nat
  entry_get_flags_attached : Nat -> Bool
  entry_recursive_loop_detect : Nat -> List Nat -> Bool × List Nat
  table_entry_special_add : Nat -> fib_pfx_t -> Nat
  receive_dpo_index : Nat -> Ip46 -> Nat

/-- Set the RESOLVED oper flag. -/
def fib_path_set_resolved (p : fib_path_t) : fib_path_t :=
  { p with fp_oper_flags := { p.fp_oper_flags with resolved := true } }

/-- Clear the RESOLVED oper flag. -/
def fib_path_clear_resolved (p : fib_path_t) : fib_path_t :=
  { p with fp_oper_flags := { p.fp_oper_flags with resolved := false } }

/-- fib_path_is_permanent_drop: the DROP cfg flag or the DROP oper flag. -/
def fib_path_is_permanent_drop (p : fib_path_t) : Bool :=
  p.fp_cfg_flags.drop || p.fp_oper_flags.drop

/-- fib_path_is_looped. -/
def fib_path_is_looped (p : fib_path_t) : Bool :=
  p.fp_oper_flags.recursive_loop

/-- fib_path_is_resolved. -/
def fib_path_is_resolved (p : fib_path_t) : Bool :=
  dpo_id_is_valid p.fp_dpo &&
  p.fp_oper_flags.resolved &&
  !(fib_path_is_looped p) &&
  !(fib_path_is_permanent_drop p)

/-- fib_path_route_flags_to_cfg_flags. -/
def fib_path_route_flags_to_cfg_flags (rpath : fib_route_path_t) : fib_path_cfg_flags_t :=
  { drop := false,
    cfg_local := false,
    resolve_host := rpath.frp_resolve_via_host,
    resolve_attached := rpath.frp_resolve_via_attached }

/-- fib_path_create: allocate a zeroed path, fill the configuration half,
normalize weight 0 to 1, fold the route-path flags into the cfg flags and
derive the type from the route-path descriptor. -/
def fib_path_create (pl_index : Nat) (nh_proto : fib_protocol_t)
    (flags : fib_path_cfg_flags_t) (rpath : fib_route_path_t) : fib_path_t :=
  let weight := if rpath.frp_weight = 0 then 1 else rpath.frp_weight
  let cfg := fib_path_cfg_flags_or flags (fib_path_route_flags_to_cfg_flags rpath)
  let payload :=
    if rpath.frp_sw_if_index ≠ FIB_NODE_INDEX_INVALID then
      if flags.cfg_local then
        fib_path_payload_t.receive rpath.frp_sw_if_index (fib_path_nh_as_addr rpath.frp_nh)
      else if fib_path_nh_is_zero_addr rpath.frp_nh then
        fib_path_payload_t.attached rpath.frp_sw_if_index
      else
        fib_path_payload_t.attached_next_hop (fib_path_nh_as_addr rpath.frp_nh)
          rpath.frp_sw_if_index
    else
      if fib_path_nh_is_zero_addr rpath.frp_nh then
        if rpath.frp_fib_index = FIB_NODE_INDEX_INVALID then
          fib_path_payload_t.special
        else
          fib_path_payload_t.deag rpath.frp_fib_index
      else
        fib_path_payload_t.recursive
          (if nh_proto = .MPLS then
             fib_path_nh_t.local_label (fib_path_nh_as_label rpath.frp_nh)
           else
             fib_path_nh_t.ip (fib_path_nh_as_addr rpath.frp_nh))
          rpath.frp_fib_index
  { fp_pl_index := pl_index,
    fp_cfg_flags := cfg,
    fp_nh_proto := nh_proto,
    fp_weight := weight,
    fp_payload := payload,
    fp_oper_flags := {},
    fp_via_fib := FIB_NODE_INDEX_INVALID,
    fp_dpo := DPO_INVALID,
    fp_sibling := 0 }

/-- fib_path_create_special. With LOCAL the C code writes
attached.fp_interface = ~0 while the type is RECEIVE; since the interface
is the first member of both union arms this lands on receive.fp_interface,
and the memset leaves receive.fp_addr zero. -/
def fib_path_create_special (pl_index : Nat) (nh_proto : fib_protocol_t)
    (flags : fib_path_cfg_flags_t) (dpo : dpo_id_t) : fib_path_t :=
  let payload :=
    if flags.drop then
      fib_path_payload_t.special
    else if flags.cfg_local then
      fib_path_payload_t.receive FIB_NODE_INDEX_INVALID zero_addr
    else
      fib_path_payload_t.exclusive dpo
  { fp_pl_index := pl_index,
    fp_cfg_flags := flags,
    fp_nh_proto := nh_proto,
    fp_weight := 1,
    fp_payload := payload,
    fp_oper_flags := {},
    fp_via_fib := FIB_NODE_INDEX_INVALID,
    fp_dpo := DPO_INVALID,
    fp_sibling := 0 }

/-- fib_path_copy: memcpy of the whole record, then reset of the derived
section (oper flags, pl index rebound, via_fib, dpo). fp_sibling is copied
and not reset, as in the source. -/
def fib_path_copy (p : fib_path_t) (path_list_index : Nat) : fib_path_t :=
  { p with
    fp_oper_flags := {},
    fp_pl_index := path_list_index,
    fp_via_fib := FIB_NODE_INDEX_INVALID,
    fp_dpo := DPO_INVALID }

/-- fib_path_hash hashes the bytes between path_hash_start and
path_hash_end: cfg_flags, type, nh_proto, weight and the union. Modelled
from the spec as the hashed region itself (a stable byte-wise hash of a
region is determined by, and here identified with, the region contents). -/
def fib_path_hash (p : fib_path_t) :
    fib_path_cfg_flags_t × fib_path_type_t × fib_protocol_t × Nat × fib_path_payload_t :=
  (p.fp_cfg_flags, p.fp_type, p.fp_nh_proto, p.fp_weight, p.fp_payload)

/-- fib_path_cmp_i. The source initialises res = 1 and assigns the type
difference when the types differ, but that assignment is dead: the next
statement is a separate if/else on nh_proto (not an else-if), and both of
its branches overwrite res. Reading a union arm of path2 that is not the
arm selected by path1's type is layout-dependent and modelled as none. -/
def fib_path_cmp_i (env : fib_ext_env) (path1 path2 : fib_path_t) : Option Int :=
  if path1.fp_nh_proto ≠ path2.fp_nh_proto then
    some (fib_protocol_val path1.fp_nh_proto - fib_protocol_val path2.fp_nh_proto)
  else
    match path1.fp_payload with
    | .attached_next_hop nh1 if1 =>
      match path2.fp_payload with
      | .attached_next_hop nh2 if2 =>
        some (if ip46_address_cmp nh1 nh2 = 0 then
                env.sw_interface_compare if1 if2
              else ip46_address_cmp nh1 nh2)
      | _ => none
    | .attached if1 =>
      match path2.fp_payload with
      | .attached if2 => some (env.sw_interface_compare if1 if2)
      | _ => none
    | .recursive nh1 tbl1 =>
      match path2.fp_payload with
      | .recursive nh2 tbl2 =>
        some (if ip46_address_cmp (fib_path_nh_as_addr nh1) (fib_path_nh_as_addr nh2) = 0 then
                ((tbl1 : Int) - (tbl2 : Int))
              else ip46_address_cmp (fib_path_nh_as_addr nh1) (fib_path_nh_as_addr nh2))
      | _ => none
    | .deag tbl1 =>
      match path2.fp_payload with
      | .deag tbl2 => some ((tbl1 : Int) - (tbl2 : Int))
      | _ => none
    | .special => some 0
    | .receive _ _ => some 0
    | .exclusive _ => some 0

/-- fib_path_cmp. -/
def fib_path_cmp (env : fib_ext_env) (p1 p2 : fib_path_t) : Option Int :=
  fib_path_cmp_i env p1 p2

/-- fib_path_attached_next_hop_get_adj: on p2p interfaces substitute the
all-zeros neighbour. Only invoked on attached-next-hop paths. -/
def fib_path_attached_next_hop_get_adj (env : fib_ext_env) (p : fib_path_t)
    (link : vnet_link_t) : Nat :=
  match p.fp_payload with
  | .attached_next_hop nh intf =>
    if env.sw_interface_is_p2p intf then
      env.adj_nbr_add_or_lock p.fp_nh_proto link zero_addr intf
    else
      env.adj_nbr_add_or_lock p.fp_nh_proto link nh intf
  | _ => 0

/-- fib_path_attached_next_hop_set: clear RESOLVED when the interface is
admin-down, stack an ADJACENCY DPO on the neighbour adjacency, and become
a child of that adjacency. -/
def fib_path_attached_next_hop_set (env : fib_ext_env) (p : fib_path_t) : fib_path_t :=
  match p.fp_payload with
  | .attached_next_hop _ intf =>
    let p1 := if env.sw_interface_is_admin_up intf then p else fib_path_clear_resolved p
    let ai := fib_path_attached_next_hop_get_adj env p1 (fib_proto_to_link p1.fp_nh_proto)
    let p2 := { p1 with
      fp_dpo := { dpoi_type := .adjacency,
                  dpoi_proto := fib_proto_to_dpo p1.fp_nh_proto,
                  dpoi_index := ai } }
    { p2 with fp_sibling := env.adj_child_add ai }
  | _ => p

/-- Result of fib_path_recursive_adj_update: the updated path, the DPO
written through the out parameter, and whether
load_balance_map_path_state_change was called. -/
structure radj_result where
  path : fib_path_t
  dpo : dpo_id_t
  lb_map_notified : Bool
deriving Repr

/-- fib_path_recursive_adj_update: fetch the via-entry forwarding, set
RESOLVED optimistically, then apply the loop / RESOLVE_HOST /
RESOLVE_ATTACHED restrictions, replacing the via DPO with drop and
clearing RESOLVED (with a load-balance-map notification for the two
recursion constraints) when one applies. -/
def fib_path_recursive_adj_update (env : fib_ext_env) (path : fib_path_t)
    (fct : fib_forward_chain_type_t) : radj_result :=
  let via_dpo := env.entry_contribute_forwarding path.fp_via_fib fct
  let path := fib_path_set_resolved path
  if path.fp_oper_flags.recursive_loop then
    { path := fib_path_clear_resolved path,
      dpo := drop_dpo_get (fib_proto_to_dpo path.fp_nh_proto),
      lb_map_notified := false }
  else if path.fp_cfg_flags.resolve_host then
    if FIB_SOURCE_RR ≤ env.entry_get_best_source path.fp_via_fib then
      { path := fib_path_clear_resolved path,
        dpo := drop_dpo_get (fib_proto_to_dpo path.fp_nh_proto),
        lb_map_notified := true }
    else
      { path := path, dpo := via_dpo, lb_map_notified := false }
  else if path.fp_cfg_flags.resolve_attached then
    if !(env.entry_get_flags_attached path.fp_via_fib) then
      { path := fib_path_clear_resolved path,
        dpo := drop_dpo_get (fib_proto_to_dpo path.fp_nh_proto),
        lb_map_notified := true }
    else
      { path := path, dpo := via_dpo, lb_map_notified := false }
  else
    { path := path, dpo := via_dpo, lb_map_notified := false }

/-- fib_path_unresolve: permanent-drop paths short-circuit; otherwise drop
the per-type parent relation (recursive: clear via_fib; exclusive: reset
the user DPO), reset the contributed DPO and clear RESOLVED. -/
def fib_path_unresolve (p : fib_path_t) : fib_path_t :=
  if fib_path_is_permanent_drop p then p
  else
    let p1 :=
      match p.fp_payload with
      | .recursive _ _ =>
        if p.fp_via_fib ≠ FIB_NODE_INDEX_INVALID then
          { p with fp_via_fib := FIB_NODE_INDEX_INVALID }
        else p
      | .exclusive _ => { p with fp_payload := .exclusive DPO_INVALID }
      | _ => p
    { p1 with
      fp_dpo := DPO_INVALID,
      fp_oper_flags := { p1.fp_oper_flags with resolved := false } }

/-- fib_path_resolve: set RESOLVED optimistically; permanent-drop paths
stack the drop DPO and clear RESOLVED; otherwise branch on the type.
Returns the updated path and the fib_path_is_resolved result. -/
def fib_path_resolve (env : fib_ext_env) (p0 : fib_path_t) : fib_path_t × Bool :=
  let p := fib_path_set_resolved p0
  if fib_path_is_permanent_drop p then
    let p1 := fib_path_clear_resolved
      { p with fp_dpo := drop_dpo_get (fib_proto_to_dpo p.fp_nh_proto) }
    (p1, fib_path_is_resolved p1)
  else
    match p.fp_payload with
    | .attached_next_hop _ _ =>
      let p1 := fib_path_attached_next_hop_set env p
      (p1, fib_path_is_resolved p1)
    | .attached intf =>
      let p1 := if env.sw_interface_is_admin_up intf then p else fib_path_clear_resolved p
      let p2 :=
        if env.sw_interface_is_p2p intf then
          { p1 with fp_dpo :=
            { dpoi_type := .adjacency,
              dpoi_proto := fib_proto_to_dpo p1.fp_nh_proto,
              dpoi_index := env.adj_nbr_add_or_lock p1.fp_nh_proto
                (fib_proto_to_link p1.fp_nh_proto) zero_addr intf } }
        else
          { p1 with fp_dpo :=
            { dpoi_type := .adjacency_glean,
              dpoi_proto := fib_proto_to_dpo p1.fp_nh_proto,
              dpoi_index := env.adj_glean_add_or_lock p1.fp_nh_proto intf } }
      let p3 := { p2 with fp_sibling := env.adj_child_add p2.fp_dpo.dpoi_index }
      (p3, fib_path_is_resolved p3)
    | .recursive nh tbl =>
      let pfx :=
        if p.fp_nh_proto = .MPLS then fib_pfx_t.mpls (fib_path_nh_as_label nh)
        else fib_pfx_t.ip46 (fib_path_nh_as_addr nh)
      let fei := env.table_entry_special_add tbl pfx
      let p1 := { p with fp_via_fib := fei }
      let p2 := { p1 with fp_sibling := env.entry_child_add fei }
      let r := fib_path_recursive_adj_update env p2
        (fib_path_proto_to_chain_type p2.fp_nh_proto)
      let p3 := { r.path with fp_dpo := r.dpo }
      (p3, fib_path_is_resolved p3)
    | .special =>
      let p1 := { p with fp_dpo := drop_dpo_get (fib_proto_to_dpo p.fp_nh_proto) }
      (p1, fib_path_is_resolved p1)
    | .deag tbl =>
      let p1 := { p with fp_dpo :=
        { dpoi_type := .lookup,
          dpoi_proto := fib_proto_to_dpo p.fp_nh_proto,
          dpoi_index := tbl } }
      (p1, fib_path_is_resolved p1)
    | .receive intf addr =>
      let p1 := { p with fp_dpo :=
        { dpoi_type := .receive_dpo,
          dpoi_proto := fib_proto_to_dpo p.fp_nh_proto,
          dpoi_index := env.receive_dpo_index intf addr } }
      (p1, fib_path_is_resolved p1)
    | .exclusive d =>
      let p1 := { p with fp_dpo := d }
      (p1, fib_path_is_resolved p1)

/-- The back-walk reason flag set (fnbw_reason). -/
structure fib_node_back_walk_ctx_t where
  evaluate : Bool := false
  adj_update : Bool := false
  adj_down : Bool := false
  interface_up : Bool := false
  interface_down : Bool := false
  interface_delete : Bool := false
deriving DecidableEq, Repr

/-- Modelled from the spec: the continue/stop result of a back walk
(fib_node.h is outside src/). -/
inductive fib_node_back_walk_rc_t
| cont
| merge
deriving DecidableEq, Repr

/-- Result of fib_path_back_walk_notify: the updated path, whether the walk
was propagated to the owning path-list, and the return code. -/
structure back_walk_result where
  path : fib_path_t
  propagated : Bool
  rc : fib_node_back_walk_rc_t
deriving Repr

/-- The tail of the attached-next-hop back-walk handling shared by the
paths through the ADJ_UPDATE branch: the ADJ_DOWN check followed by the
propagation to the path-list. -/
def fib_path_bw_anh_tail (p : fib_path_t) (ctx : fib_node_back_walk_ctx_t) :
    back_walk_result :=
  if ctx.adj_down && !p.fp_oper_flags.resolved then
    { path := p, propagated := false, rc := .cont }
  else
    let p1 := if ctx.adj_down then fib_path_clear_resolved p else p
    { path := p1, propagated := true, rc := .cont }

/-- fib_path_back_walk_notify: per-kind handling of the reason flags, with
the early returns of the source modelled as results with propagated =
false. Every exit returns FIB_NODE_BACK_WALK_CONTINUE. -/
def fib_path_back_walk_notify (env : fib_ext_env) (p : fib_path_t)
    (ctx : fib_node_back_walk_ctx_t) : back_walk_result :=
  match p.fp_payload with
  | .recursive _ _ =>
    let p1 :=
      if ctx.evaluate then
        let r := fib_path_recursive_adj_update env p
          (fib_path_proto_to_chain_type p.fp_nh_proto)
        { r.path with fp_dpo := r.dpo }
      else p
    if ctx.adj_update || ctx.adj_down then
      { path := p1, propagated := false, rc := .cont }
    else
      { path := p1, propagated := true, rc := .cont }
  | .attached_next_hop _ intf =>
    if ctx.interface_up && p.fp_oper_flags.resolved then
      { path := p, propagated := false, rc := .cont }
    else
      let p1 := if ctx.interface_up then fib_path_set_resolved p else p
      if ctx.interface_down && !p1.fp_oper_flags.resolved then
        { path := p1, propagated := false, rc := .cont }
      else
        let p2 := if ctx.interface_down then fib_path_clear_resolved p1 else p1
        let p3 :=
          if ctx.interface_delete then
            let q := fib_path_unresolve p2
            { q with fp_oper_flags := { q.fp_oper_flags with drop := true } }
          else p2
        if ctx.adj_update then
          let if_is_up := env.sw_interface_is_admin_up intf
          let p4 := if if_is_up then fib_path_set_resolved p3 else p3
          let ai := fib_path_attached_next_hop_get_adj env p4
            (fib_proto_to_link p4.fp_nh_proto)
          let p5 := { p4 with fp_dpo :=
            { dpoi_type := .adjacency,
              dpoi_proto := fib_proto_to_dpo p4.fp_nh_proto,
              dpoi_index := ai } }
          if !if_is_up then
            { path := p5, propagated := false, rc := .cont }
          else
            fib_path_bw_anh_tail p5 ctx
        else
          fib_path_bw_anh_tail p3 ctx
  | .attached _ =>
    let p1 := if ctx.interface_up then fib_path_set_resolved p else p
    let p2 := if ctx.interface_down then fib_path_clear_resolved p1 else p1
    let p3 :=
      if ctx.interface_delete then
        let q := fib_path_unresolve p2
        { q with fp_oper_flags := { q.fp_oper_flags with drop := true } }
      else p2
    { path := p3, propagated := true, rc := .cont }
  | _ =>
    -- deag / special / receive / exclusive: ASSERT(0) in the source, then
    -- the walk falls through to the propagation.
    { path := p, propagated := true, rc := .cont }

/-- Result of fib_path_recursive_loop_detect: the updated path, the
(possibly extended) visited-entry vector, and the returned looped flag. -/
structure loop_detect_result where
  path : fib_path_t
  entries : List Nat
  looped : Bool
deriving Repr

/-- fib_path_recursive_loop_detect: permanent-drop paths return not-looped
unchanged; recursive paths whose via_fib is among the visited entries are
marked RECURSIVE_LOOP and given the drop DPO; otherwise the via-entry
detector decides the flag; all other kinds are leaves. The function
returns fib_path_is_looped of the final state. -/
def fib_path_recursive_loop_detect (env : fib_ext_env) (p : fib_path_t)
    (entry_indicies : List Nat) : loop_detect_result :=
  if fib_path_is_permanent_drop p then
    { path := p, entries := entry_indicies, looped := false }
  else
    match p.fp_payload with
    | .recursive _ _ =>
      if entry_indicies.contains p.fp_via_fib then
        let p1 := { p with
          fp_oper_flags := { p.fp_oper_flags with recursive_loop := true },
          fp_dpo := drop_dpo_get (fib_proto_to_dpo p.fp_nh_proto) }
        { path := p1, entries := entry_indicies, looped := fib_path_is_looped p1 }
      else
        let r := env.entry_recursive_loop_detect p.fp_via_fib entry_indicies
        let p1 := { p with
          fp_oper_flags := { p.fp_oper_flags with recursive_loop := r.1 } }
        { path := p1, entries := r.2, looped := fib_path_is_looped p1 }
    | _ =>
      { path := p, entries := entry_indicies, looped := fib_path_is_looped p }

/-- Union read of exclusive.fp_ex_dpo: defined on exclusive paths; on any
other kind the C read is a layout-dependent overlay, modelled as the
invalid DPO. -/
def fib_path_ex_dpo_read (p : fib_path_t) : dpo_id_t :=
  match p.fp_payload with
  | .exclusive d => d
  | _ => DPO_INVALID

/-- fib_path_encode: emit weight and proto, default the interface to ~0,
copy the exclusive-arm DPO, then fill the per-kind fields. The RECURSIVE
case copies the 16-byte next-hop union through its ip46 arm; for an MPLS
label this writes the label bytes into the output union, so reading the
output through the label arm recovers the stored label. -/
def fib_path_encode (p : fib_path_t) : fib_route_path_t × dpo_id_t :=
  let r : fib_route_path_t :=
    { frp_proto := p.fp_nh_proto,
      frp_nh := .ip zero_addr,
      frp_sw_if_index := FIB_NODE_INDEX_INVALID,
      frp_fib_index := 0,
      frp_weight := p.fp_weight,
      frp_resolve_via_host := false,
      frp_resolve_via_attached := false }
  let dpo := fib_path_ex_dpo_read p
  let r :=
    match p.fp_payload with
    | .receive intf addr =>
      { r with frp_nh := .ip addr, frp_sw_if_index := intf }
    | .attached intf =>
      { r with frp_sw_if_index := intf }
    | .attached_next_hop nh intf =>
      { r with frp_sw_if_index := intf, frp_nh := .ip nh }
    | .special => r
    | .deag _ => r
    | .recursive nh _ =>
      { r with frp_nh := .ip (fib_path_nh_as_addr nh) }
    | .exclusive _ => r
  (r, dpo)


/-!
Shared concrete fixtures used by witnesses and counterexamples.
-/

/-- A concrete environment with total, executable oracles. -/
def envTrivial : fib_ext_env :=
  { sw_interface_is_p2p := fun _ => false,
    sw_interface_is_admin_up := fun _ => true,
    sw_interface_compare := fun i j => (i : Int) - (j : Int),
    adj_nbr_add_or_lock := fun _ _ _ _ => 1,
    adj_glean_add_or_lock := fun _ _ => 2,
    adj_child_add := fun _ => 0,
    entry_child_add := fun _ => 0,
    entry_contribute_forwarding := fun _ _ =>
      { dpoi_type := .load_balance, dpoi_proto := .ip4, dpoi_index := 7 },
    entry_get_best_source := fun _ => 20,
    entry_get_flags_attached := fun _ => false,
    entry_recursive_loop_detect := fun _ es => (false, es),
    table_entry_special_add := fun _ _ => 0,
    receive_dpo_index := fun _ _ => 0 }

/-- A route-path descriptor with no interface, zero address, no table:
fib_path_create derives a special path from it. -/
def rpSpecial : fib_route_path_t :=
  { frp_proto := .IP4,
    frp_nh := .ip zero_addr,
    frp_sw_if_index := FIB_NODE_INDEX_INVALID,
    frp_fib_index := FIB_NODE_INDEX_INVALID,
    frp_weight := 1 }

/-- A route-path descriptor with an interface and an address, used with the
LOCAL flag: fib_path_create derives a receive path from it. -/
def rpLocal : fib_route_path_t :=
  { frp_proto := .IP4,
    frp_nh := .ip { w0 := 5, w1 := 6 },
    frp_sw_if_index := 3,
    frp_fib_index := FIB_NODE_INDEX_INVALID,
    frp_weight := 1 }

/-- The LOCAL cfg flag set. -/
def cfgLocal : fib_path_cfg_flags_t := { cfg_local := true }

/-- The DROP cfg flag set. -/
def cfgDrop : fib_path_cfg_flags_t := { drop := true }

/-!
Helper lemmas: the DROP oper flag is untouched by the derived-state
operations, and a set DROP oper flag forces is_resolved to false.
-/

/-- Setting RESOLVED leaves the DROP oper flag alone. -/
theorem set_resolved_oper_drop (q : fib_path_t) :
    (fib_path_set_resolved q).fp_oper_flags.drop = q.fp_oper_flags.drop := rfl

/-- Clearing RESOLVED leaves the DROP oper flag alone. -/
theorem clear_resolved_oper_drop (q : fib_path_t) :
    (fib_path_clear_resolved q).fp_oper_flags.drop = q.fp_oper_flags.drop := rfl

/-- fib_path_unresolve leaves the DROP oper flag alone. -/
theorem unresolve_oper_drop (q : fib_path_t) :
    (fib_path_unresolve q).fp_oper_flags.drop = q.fp_oper_flags.drop := by
  unfold fib_path_unresolve
  cases hq : q.fp_payload <;> dsimp only <;> split_ifs <;> rfl

/-- fib_path_recursive_adj_update leaves the DROP oper flag alone. -/
theorem radj_update_oper_drop (env : fib_ext_env) (q : fib_path_t)
    (fct : fib_forward_chain_type_t) :
    (fib_path_recursive_adj_update env q fct).path.fp_oper_flags.drop =
      q.fp_oper_flags.drop := by
  unfold fib_path_recursive_adj_update
  dsimp only
  split_ifs <;> rfl

/-- The shared attached-next-hop back-walk tail leaves the DROP oper flag
alone. -/
theorem bw_anh_tail_oper_drop (q : fib_path_t) (ctx : fib_node_back_walk_ctx_t) :
    (fib_path_bw_anh_tail q ctx).path.fp_oper_flags.drop = q.fp_oper_flags.drop := by
  unfold fib_path_bw_anh_tail
  dsimp only
  split_ifs <;> rfl

set_option maxHeartbeats 2000000 in
/-- No back-walk clears the DROP oper flag. -/
theorem back_walk_preserves_oper_drop (env : fib_ext_env) (p : fib_path_t)
    (ctx : fib_node_back_walk_ctx_t) (h : p.fp_oper_flags.drop = true) :
    (fib_path_back_walk_notify env p ctx).path.fp_oper_flags.drop = true := by
  unfold fib_path_back_walk_notify
  cases hp : p.fp_payload <;> dsimp only <;>
    first
    | (split_ifs <;>
        simp [bw_anh_tail_oper_drop, unresolve_oper_drop, radj_update_oper_drop,
          set_resolved_oper_drop, clear_resolved_oper_drop, h])
    | exact h

/-- A path whose DROP oper flag is set is a permanent drop, hence never
resolved. -/
theorem oper_drop_not_resolved (p : fib_path_t) (h : p.fp_oper_flags.drop = true) :
    fib_path_is_resolved p = false := by
  simp [fib_path_is_resolved, fib_path_is_permanent_drop, h]

/-- The shared attached-next-hop back-walk tail returns CONTINUE. -/
theorem bw_anh_tail_rc (q : fib_path_t) (ctx : fib_node_back_walk_ctx_t) :
    (fib_path_bw_anh_tail q ctx).rc = .cont := by
  unfold fib_path_bw_anh_tail
  dsimp only
  split_ifs <;> rfl

set_option maxHeartbeats 2000000 in
/-- C9: the back-walk handler returns CONTINUE for every path kind and
every reason set; the propagate-stop outcomes of the spec are early exits
that skip the propagation call, never a distinct return code. -/
theorem back_walk_rc_always_continue (env : fib_ext_env) (p : fib_path_t)
    (ctx : fib_node_back_walk_ctx_t) :
    (fib_path_back_walk_notify env p ctx).rc = .cont := by
  unfold fib_path_back_walk_notify
  cases hp : p.fp_payload <;> dsimp only <;>
    split_ifs <;> first | rfl | (exact bw_anh_tail_rc _ _)

/-- C10: a permanent-drop path short-circuits recursive loop detection: it
reports not-looped and neither the path state nor the visited-entry vector
is modified. -/
theorem loop_detect_permanent_drop_frame (env : fib_ext_env) (p : fib_path_t)
    (entries : List Nat) (h : fib_path_is_permanent_drop p = true) :
    fib_path_recursive_loop_detect env p entries =
      { path := p, entries := entries, looped := false } := by
  unfold fib_path_recursive_loop_detect
  simp [h]

/-- C10 witness: the short-circuit evaluated at a concrete permanent-drop
path. -/
theorem loop_detect_permanent_drop_frame_witness :
    fib_path_recursive_loop_detect envTrivial (fib_path_create 0 .IP4 cfgDrop rpSpecial) [5] =
      { path := fib_path_create 0 .IP4 cfgDrop rpSpecial, entries := [5], looped := false } :=
  loop_detect_permanent_drop_frame envTrivial (fib_path_create 0 .IP4 cfgDrop rpSpecial) [5]
    (by decide)

/-- C2: the claim fails on the code and the code contradicts its own
comment (paths of different types are not equal): the type check in
fib_path_cmp_i is an if followed by a separate if/else on nh_proto rather
than an else-if, so the stored type difference is always overwritten. Two
reachable paths of different kinds (special vs receive) with equal
nh_proto compare equal. -/
theorem cmp_ignores_type_difference :
    fib_path_cmp envTrivial (fib_path_create 0 .IP4 {} rpSpecial)
        (fib_path_create 0 .IP4 cfgLocal rpLocal) = some 0 ∧
    (fib_path_create 0 .IP4 {} rpSpecial).fp_type ≠
      (fib_path_create 0 .IP4 cfgLocal rpLocal).fp_type := by
  constructor
  · rfl
  · decide

/-- Setting RESOLVED does not change whether the path is a permanent drop. -/
theorem set_resolved_permanent_drop (q : fib_path_t) :
    fib_path_is_permanent_drop (fib_path_set_resolved q) =
      fib_path_is_permanent_drop q := rfl

/-- C1 counterexample: a freshly created permanent-drop path (DROP cfg
flag) has RESOLVED clear but its contributed DPO is the reset invalid DPO,
not the drop DPO of its nh_proto. -/
theorem permanent_drop_after_create_counterexample :
    fib_path_is_permanent_drop (fib_path_create_special 0 .IP4 cfgDrop DPO_INVALID) = true ∧
    (fib_path_create_special 0 .IP4 cfgDrop DPO_INVALID).fp_oper_flags.resolved = false ∧
    (fib_path_create_special 0 .IP4 cfgDrop DPO_INVALID).fp_dpo ≠
      drop_dpo_get (fib_proto_to_dpo
        (fib_path_create_special 0 .IP4 cfgDrop DPO_INVALID).fp_nh_proto) := by
  decide

/-- C1 (amended): after resolve, a permanent-drop path carries the drop
DPO of its nh_proto with RESOLVED clear (and resolve reports it not
resolved); immediately after create_special with the DROP flag, RESOLVED
is clear but the contributed DPO is still the reset invalid DPO. -/
theorem permanent_drop_invariant_amended (env : fib_ext_env) (p : fib_path_t)
    (h : fib_path_is_permanent_drop p = true) :
    ((fib_path_resolve env p).1.fp_dpo =
        drop_dpo_get (fib_proto_to_dpo p.fp_nh_proto) ∧
      (fib_path_resolve env p).1.fp_oper_flags.resolved = false ∧
      (fib_path_resolve env p).2 = false) ∧
    (∀ (pl : Nat) (proto : fib_protocol_t) (flags : fib_path_cfg_flags_t) (d : dpo_id_t),
      flags.drop = true →
        (fib_path_create_special pl proto flags d).fp_oper_flags.resolved = false ∧
        (fib_path_create_special pl proto flags d).fp_dpo = DPO_INVALID) := by
  constructor
  · unfold fib_path_resolve
    dsimp only
    rw [set_resolved_permanent_drop, h]
    simp [fib_path_set_resolved, fib_path_clear_resolved, fib_path_is_resolved,
      fib_path_is_permanent_drop, fib_path_is_looped, dpo_id_is_valid, drop_dpo_get]
  · intro pl proto flags d hf
    constructor <;> rfl

/-- C1 witness: the amended invariant applied to a concrete permanent-drop
path after resolve. -/
theorem permanent_drop_invariant_amended_witness :
    (fib_path_resolve envTrivial (fib_path_create_special 0 .IP4 cfgDrop DPO_INVALID)).1.fp_dpo =
      drop_dpo_get (fib_proto_to_dpo
        (fib_path_create_special 0 .IP4 cfgDrop DPO_INVALID).fp_nh_proto) :=
  ((permanent_drop_invariant_amended envTrivial
      (fib_path_create_special 0 .IP4 cfgDrop DPO_INVALID) (by decide)).1).1

/-- C4: for a Recursive path with RESOLVE_HOST set and no RECURSIVE_LOOP,
recursive_adj_update drops and clears RESOLVED, with a load-balance-map
notification, exactly when best_source(via_fib) is at or below the RR
priority; otherwise it copies out the via-entry forwarding DPO and leaves
RESOLVED set. -/
theorem recursive_adj_update_resolve_host (env : fib_ext_env) (p : fib_path_t)
    (fct : fib_forward_chain_type_t)
    (hk : p.fp_type = .recursive)
    (hh : p.fp_cfg_flags.resolve_host = true)
    (hl : p.fp_oper_flags.recursive_loop = false) :
    (FIB_SOURCE_RR ≤ env.entry_get_best_source p.fp_via_fib →
      (fib_path_recursive_adj_update env p fct).dpo =
        drop_dpo_get (fib_proto_to_dpo p.fp_nh_proto) ∧
      (fib_path_recursive_adj_update env p fct).path.fp_oper_flags.resolved = false ∧
      (fib_path_recursive_adj_update env p fct).lb_map_notified = true) ∧
    (env.entry_get_best_source p.fp_via_fib < FIB_SOURCE_RR →
      (fib_path_recursive_adj_update env p fct).dpo =
        env.entry_contribute_forwarding p.fp_via_fib fct ∧
      (fib_path_recursive_adj_update env p fct).path.fp_oper_flags.resolved = true ∧
      (fib_path_recursive_adj_update env p fct).lb_map_notified = false) := by
  unfold fib_path_recursive_adj_update
  dsimp only
  constructor <;> intro hbs
  · simp [fib_path_set_resolved, fib_path_clear_resolved, hh, hl, hbs]
  · have hbs2 : ¬ (FIB_SOURCE_RR ≤ env.entry_get_best_source p.fp_via_fib) := by omega
    simp [fib_path_set_resolved, fib_path_clear_resolved, hh, hl, hbs2]

/-- A concrete Recursive path with RESOLVE_HOST set and a live via-entry. -/
def pRecHost : fib_path_t :=
  { fp_pl_index := 0,
    fp_cfg_flags := { resolve_host := true },
    fp_nh_proto := .IP4,
    fp_weight := 1,
    fp_payload := .recursive (.ip { w0 := 1, w1 := 0 }) 0,
    fp_oper_flags := {},
    fp_via_fib := 9,
    fp_dpo := DPO_INVALID,
    fp_sibling := 0 }

/-- C4 witness: with a best source at RR priority or below, the update
stacks the drop DPO. -/
theorem recursive_adj_update_resolve_host_witness :
    (fib_path_recursive_adj_update envTrivial pRecHost .unicast_ip4).dpo =
      drop_dpo_get (fib_proto_to_dpo pRecHost.fp_nh_proto) :=
  ((recursive_adj_update_resolve_host envTrivial pRecHost .unicast_ip4
      (by decide) (by decide) (by decide)).1 (by decide)).1

/-- A reachable permanent-drop Recursive path (DROP cfg flag). -/
def pRecDrop : fib_path_t :=
  { fp_pl_index := 0,
    fp_cfg_flags := cfgDrop,
    fp_nh_proto := .IP4,
    fp_weight := 1,
    fp_payload := .recursive (.ip { w0 := 1, w1 := 0 }) 0,
    fp_oper_flags := {},
    fp_via_fib := 5,
    fp_dpo := DPO_INVALID,
    fp_sibling := 0 }

/-- A non-recursive path whose RECURSIVE_LOOP flag is set. -/
def pAttLoop : fib_path_t :=
  { fp_pl_index := 0,
    fp_cfg_flags := {},
    fp_nh_proto := .IP4,
    fp_weight := 1,
    fp_payload := .attached 2,
    fp_oper_flags := { recursive_loop := true },
    fp_via_fib := FIB_NODE_INDEX_INVALID,
    fp_dpo := DPO_INVALID,
    fp_sibling := 0 }

/-- C5 counterexample: (a) a permanent-drop Recursive path whose via_fib
is in the visited vector does not get RECURSIVE_LOOP set (the function
returns before the recursive branch); (b) a non-Recursive path reports
the current looped flag, not unconditionally not-looped. -/
theorem loop_detect_claim_counterexample :
    (pRecDrop.fp_type = .recursive ∧
      List.contains [5] pRecDrop.fp_via_fib = true ∧
      (fib_path_recursive_loop_detect envTrivial pRecDrop [5]).path.fp_oper_flags.recursive_loop
        = false) ∧
    (pAttLoop.fp_type ≠ .recursive ∧
      (fib_path_recursive_loop_detect envTrivial pAttLoop []).looped = true) := by
  decide

/-- C5 (amended): for every path that is not a permanent drop, loop
detection behaves as claimed: a Recursive path with via_fib among the
visited entries is marked RECURSIVE_LOOP and given the drop DPO; a
Recursive path otherwise takes its flag from the via-entry detector; any
other kind is left unchanged and reports its current looped flag. -/
theorem loop_detect_amended (env : fib_ext_env) (p : fib_path_t) (entries : List Nat)
    (hnd : fib_path_is_permanent_drop p = false) :
    (p.fp_type = .recursive → List.contains entries p.fp_via_fib = true →
      (fib_path_recursive_loop_detect env p entries).path.fp_oper_flags.recursive_loop = true ∧
      (fib_path_recursive_loop_detect env p entries).path.fp_dpo =
        drop_dpo_get (fib_proto_to_dpo p.fp_nh_proto) ∧
      (fib_path_recursive_loop_detect env p entries).looped = true ∧
      (fib_path_recursive_loop_detect env p entries).entries = entries) ∧
    (p.fp_type = .recursive → List.contains entries p.fp_via_fib = false →
      (fib_path_recursive_loop_detect env p entries).path.fp_oper_flags.recursive_loop =
        (env.entry_recursive_loop_detect p.fp_via_fib entries).1 ∧
      (fib_path_recursive_loop_detect env p entries).looped =
        (env.entry_recursive_loop_detect p.fp_via_fib entries).1 ∧
      (fib_path_recursive_loop_detect env p entries).entries =
        (env.entry_recursive_loop_detect p.fp_via_fib entries).2) ∧
    (p.fp_type ≠ .recursive →
      (fib_path_recursive_loop_detect env p entries).path = p ∧
      (fib_path_recursive_loop_detect env p entries).entries = entries ∧
      (fib_path_recursive_loop_detect env p entries).looped =
        p.fp_oper_flags.recursive_loop) := by
  unfold fib_path_recursive_loop_detect
  rw [hnd]
  cases hp : p.fp_payload <;>
    simp_all [fib_path_t.fp_type, fib_path_is_looped]

/-- A non-permanent-drop Recursive path whose via-entry is already on the
visited walk. -/
def pRecLoop : fib_path_t :=
  { fp_pl_index := 0,
    fp_cfg_flags := {},
    fp_nh_proto := .IP4,
    fp_weight := 1,
    fp_payload := .recursive (.ip { w0 := 1, w1 := 0 }) 0,
    fp_oper_flags := {},
    fp_via_fib := 5,
    fp_dpo := DPO_INVALID,
    fp_sibling := 0 }

/-- C5 witness: the looped branch evaluated at a concrete cycle. -/
theorem loop_detect_amended_witness :
    (fib_path_recursive_loop_detect envTrivial pRecLoop [5]).path.fp_oper_flags.recursive_loop
      = true :=
  ((loop_detect_amended envTrivial pRecLoop [5] (by decide)).1 (by decide) (by decide)).1

/-- C3: fib_path_create derives the path kind from the route-path
descriptor exactly as the spec table states, and fills the per-kind
payload from the descriptor (for Recursive, the MPLS label is stored
instead of the address exactly when nh_proto is MPLS). -/
theorem create_kind_derivation (pl : Nat) (nh_proto : fib_protocol_t)
    (flags : fib_path_cfg_flags_t) (rp : fib_route_path_t) :
    (rp.frp_sw_if_index ≠ FIB_NODE_INDEX_INVALID → flags.cfg_local = true →
      (fib_path_create pl nh_proto flags rp).fp_payload =
        .receive rp.frp_sw_if_index (fib_path_nh_as_addr rp.frp_nh)) ∧
    (rp.frp_sw_if_index ≠ FIB_NODE_INDEX_INVALID → flags.cfg_local = false →
      fib_path_nh_is_zero_addr rp.frp_nh = true →
      (fib_path_create pl nh_proto flags rp).fp_payload =
        .attached rp.frp_sw_if_index) ∧
    (rp.frp_sw_if_index ≠ FIB_NODE_INDEX_INVALID → flags.cfg_local = false →
      fib_path_nh_is_zero_addr rp.frp_nh = false →
      (fib_path_create pl nh_proto flags rp).fp_payload =
        .attached_next_hop (fib_path_nh_as_addr rp.frp_nh) rp.frp_sw_if_index) ∧
    (rp.frp_sw_if_index = FIB_NODE_INDEX_INVALID →
      fib_path_nh_is_zero_addr rp.frp_nh = true →
      rp.frp_fib_index = FIB_NODE_INDEX_INVALID →
      (fib_path_create pl nh_proto flags rp).fp_payload = .special) ∧
    (rp.frp_sw_if_index = FIB_NODE_INDEX_INVALID →
      fib_path_nh_is_zero_addr rp.frp_nh = true →
      rp.frp_fib_index ≠ FIB_NODE_INDEX_INVALID →
      (fib_path_create pl nh_proto flags rp).fp_payload = .deag rp.frp_fib_index) ∧
    (rp.frp_sw_if_index = FIB_NODE_INDEX_INVALID →
      fib_path_nh_is_zero_addr rp.frp_nh = false →
      (fib_path_create pl nh_proto flags rp).fp_payload =
        .recursive
          (if nh_proto = .MPLS then .local_label (fib_path_nh_as_label rp.frp_nh)
           else .ip (fib_path_nh_as_addr rp.frp_nh))
          rp.frp_fib_index) := by
  refine ⟨?_, ?_, ?_, ?_, ?_, ?_⟩ <;> intros <;>
    simp_all [fib_path_create]

/-- C3 witness: the Receive branch at a concrete descriptor (interface 3,
address (5,6), LOCAL flag). -/
theorem create_kind_derivation_witness :
    (fib_path_create 0 .IP4 cfgLocal rpLocal).fp_payload =
      .receive rpLocal.frp_sw_if_index (fib_path_nh_as_addr rpLocal.frp_nh) :=
  (create_kind_derivation 0 .IP4 cfgLocal rpLocal).1 (by decide) (by decide)

/-- The back-walk reason set holding only INTERFACE_DELETE. -/
def ctxDelete : fib_node_back_walk_ctx_t := { interface_delete := true }

/-- The back-walk reason set holding only INTERFACE_UP. -/
def ctxUp : fib_node_back_walk_ctx_t := { interface_up := true }

/-- Once set, the DROP oper flag survives any sequence of back-walks. -/
theorem back_walk_foldl_preserves_oper_drop (env : fib_ext_env)
    (ctxs : List fib_node_back_walk_ctx_t) (q : fib_path_t)
    (h : q.fp_oper_flags.drop = true) :
    (ctxs.foldl (fun r c => (fib_path_back_walk_notify env r c).path) q).fp_oper_flags.drop
      = true := by
  induction ctxs generalizing q with
  | nil => exact h
  | cons c cs ih => exact ih _ (back_walk_preserves_oper_drop env q c h)

/-- C6: for an AttachedNextHop or Attached path, a back-walk whose reason
is INTERFACE_DELETE sets the permanent DROP oper-flag and unresolves the
path, and the path is never resolved again: a subsequent INTERFACE_UP
back-walk, and indeed any sequence of further back-walks, leaves
is_resolved false. -/
theorem interface_delete_is_permanent (env : fib_ext_env) (p : fib_path_t)
    (hk : p.fp_type = .attached_next_hop ∨ p.fp_type = .attached) :
    (fib_path_back_walk_notify env p ctxDelete).path.fp_oper_flags.drop = true ∧
    fib_path_is_resolved (fib_path_back_walk_notify env p ctxDelete).path = false ∧
    fib_path_is_resolved
      (fib_path_back_walk_notify env
        (fib_path_back_walk_notify env p ctxDelete).path ctxUp).path = false ∧
    (∀ ctxs : List fib_node_back_walk_ctx_t,
      fib_path_is_resolved
        (ctxs.foldl (fun q c => (fib_path_back_walk_notify env q c).path)
          (fib_path_back_walk_notify env p ctxDelete).path) = false) := by
  have h1 : (fib_path_back_walk_notify env p ctxDelete).path.fp_oper_flags.drop = true := by
    unfold fib_path_back_walk_notify
    cases hp : p.fp_payload <;>
      simp_all [fib_path_t.fp_type, ctxDelete, fib_path_bw_anh_tail,
        fib_path_set_resolved, fib_path_clear_resolved]
  refine ⟨h1, oper_drop_not_resolved _ h1, ?_, ?_⟩
  · exact oper_drop_not_resolved _ (back_walk_preserves_oper_drop env _ ctxUp h1)
  · intro ctxs
    exact oper_drop_not_resolved _ (back_walk_foldl_preserves_oper_drop env ctxs _ h1)

/-- A resolved Attached path over interface 2. -/
def pAttUp : fib_path_t :=
  { fp_pl_index := 0,
    fp_cfg_flags := {},
    fp_nh_proto := .IP4,
    fp_weight := 1,
    fp_payload := .attached 2,
    fp_oper_flags := { resolved := true },
    fp_via_fib := FIB_NODE_INDEX_INVALID,
    fp_dpo := { dpoi_type := .adjacency_glean, dpoi_proto := .ip4, dpoi_index := 2 },
    fp_sibling := 0 }

/-- C6 witness: after INTERFACE_DELETE then INTERFACE_UP, a concrete
attached path stays unresolved. -/
theorem interface_delete_is_permanent_witness :
    fib_path_is_resolved
      (fib_path_back_walk_notify envTrivial
        (fib_path_back_walk_notify envTrivial pAttUp ctxDelete).path ctxUp).path = false :=
  (interface_delete_is_permanent envTrivial pAttUp (Or.inr rfl)).2.2.1

/-- A route-path descriptor with weight 0 (normalized to 1 by create). -/
def rpW0 : fib_route_path_t :=
  { frp_proto := .IP4,
    frp_nh := .ip zero_addr,
    frp_sw_if_index := FIB_NODE_INDEX_INVALID,
    frp_fib_index := FIB_NODE_INDEX_INVALID,
    frp_weight := 0 }

/-- C7 counterexample: encode(create(rp)) does not return rp's weight when
the weight is 0, because create normalizes weight 0 to 1. -/
theorem encode_create_counterexample :
    (fib_path_encode (fib_path_create 0 rpW0.frp_proto {} rpW0)).1.frp_weight ≠
      rpW0.frp_weight := by
  decide

/-- Reading an ip46 arm through the ip46 view is the identity. -/
theorem nh_as_addr_ip (a : Ip46) : fib_path_nh_as_addr (.ip a) = a := rfl

/-- Reading a label arm through the ip46 view yields the label overlaid on
a zeroed address. -/
theorem nh_as_addr_label (l : Nat) :
    fib_path_nh_as_addr (.local_label l) = { w0 := l, w1 := 0 } := rfl

/-- Reading an ip46 arm through the label view yields the low 32 bits of
the first word. -/
theorem nh_as_label_ip (a : Ip46) :
    fib_path_nh_as_label (.ip a) = a.w0 % 4294967296 := rfl

/-- A next-hop union that tests zero reads as the zero address. -/
theorem nh_zero_as_addr (nh : fib_path_nh_t) (h : fib_path_nh_is_zero_addr nh = true) :
    fib_path_nh_as_addr nh = zero_addr := by
  cases nh with
  | ip a =>
    cases a
    simp_all [fib_path_nh_is_zero_addr, fib_path_nh_as_addr, ip46_address_is_zero,
      zero_addr]
  | local_label l =>
    simp_all [fib_path_nh_is_zero_addr, fib_path_nh_as_addr, ip46_address_is_zero,
      zero_addr]

/-- C7 (amended): for every descriptor with nonzero weight,
encode(create(pl, rp.frp_proto, flags, rp)) returns rp's weight, protocol
and interface; rp's address (the union read through its ip46 arm) is
returned for every kind except possibly Recursive with nh_proto MPLS
(where only the 32-bit label bytes of the union survive the store); and
for Recursive with nh_proto MPLS the label itself (the union read through
its label arm, for u32-representable labels) round-trips exactly. -/
theorem encode_create_amended (pl : Nat) (flags : fib_path_cfg_flags_t)
    (rp : fib_route_path_t) (hw : rp.frp_weight ≠ 0) :
    (fib_path_encode (fib_path_create pl rp.frp_proto flags rp)).1.frp_weight =
      rp.frp_weight ∧
    (fib_path_encode (fib_path_create pl rp.frp_proto flags rp)).1.frp_proto =
      rp.frp_proto ∧
    (fib_path_encode (fib_path_create pl rp.frp_proto flags rp)).1.frp_sw_if_index =
      rp.frp_sw_if_index ∧
    (¬ (rp.frp_sw_if_index = FIB_NODE_INDEX_INVALID ∧
        fib_path_nh_is_zero_addr rp.frp_nh = false ∧
        rp.frp_proto = .MPLS) →
      fib_path_nh_as_addr
          (fib_path_encode (fib_path_create pl rp.frp_proto flags rp)).1.frp_nh =
        fib_path_nh_as_addr rp.frp_nh) ∧
    (rp.frp_sw_if_index = FIB_NODE_INDEX_INVALID →
      fib_path_nh_is_zero_addr rp.frp_nh = false →
      rp.frp_proto = .MPLS →
      fib_path_nh_as_label rp.frp_nh < 4294967296 →
      fib_path_nh_as_label
          (fib_path_encode (fib_path_create pl rp.frp_proto flags rp)).1.frp_nh =
        fib_path_nh_as_label rp.frp_nh) := by
  unfold fib_path_create fib_path_encode
  dsimp only
  split_ifs <;>
    simp_all [fib_path_ex_dpo_read, nh_as_addr_ip, nh_zero_as_addr,
      nh_as_addr_label, nh_as_label_ip, Nat.mod_eq_of_lt]

/-- A well-formed attached-next-hop descriptor with weight 2. -/
def rpAnh : fib_route_path_t :=
  { frp_proto := .IP4,
    frp_nh := .ip { w0 := 9, w1 := 9 },
    frp_sw_if_index := 4,
    frp_fib_index := FIB_NODE_INDEX_INVALID,
    frp_weight := 2 }

/-- A well-formed MPLS recursive descriptor carrying label 42. -/
def rpMplsRec : fib_route_path_t :=
  { frp_proto := .MPLS,
    frp_nh := .local_label 42,
    frp_sw_if_index := FIB_NODE_INDEX_INVALID,
    frp_fib_index := 0,
    frp_weight := 3 }

/-- C7 witness: the amended round trip at a concrete attached-next-hop
descriptor, and the MPLS label round trip at a concrete recursive MPLS
descriptor. -/
theorem encode_create_amended_witness :
    ((fib_path_encode (fib_path_create 0 rpAnh.frp_proto {} rpAnh)).1.frp_weight =
      rpAnh.frp_weight) ∧
    (fib_path_nh_as_label
        (fib_path_encode (fib_path_create 0 rpMplsRec.frp_proto {} rpMplsRec)).1.frp_nh =
      fib_path_nh_as_label rpMplsRec.frp_nh) :=
  ⟨(encode_create_amended 0 {} rpAnh (by decide)).1,
   (encode_create_amended 0 {} rpMplsRec (by decide)).2.2.2.2
     (by decide) (by decide) (by decide) (by decide)⟩

/-- Comparing an address with itself gives 0. -/
theorem ip46_address_cmp_self (a : Ip46) : ip46_address_cmp a a = 0 := by
  simp [ip46_address_cmp]

/-- C8: a copy rebinds the path-list, keeps the whole configuration half
(hence equal hash and cmp = 0, given a reflexive interface-compare
oracle), and resets the derived half: oper flags cleared, via_fib
invalid, DPO reset, so the copy is initially unresolved. -/
theorem copy_hash_cmp_unresolved (env : fib_ext_env) (p : fib_path_t) (new_pl : Nat)
    (hc : ∀ i, env.sw_interface_compare i i = 0) :
    fib_path_hash (fib_path_copy p new_pl) = fib_path_hash p ∧
    fib_path_cmp env (fib_path_copy p new_pl) p = some 0 ∧
    fib_path_is_resolved (fib_path_copy p new_pl) = false ∧
    (fib_path_copy p new_pl).fp_oper_flags = {} ∧
    (fib_path_copy p new_pl).fp_via_fib = FIB_NODE_INDEX_INVALID ∧
    (fib_path_copy p new_pl).fp_dpo = DPO_INVALID := by
  refine ⟨rfl, ?_, rfl, rfl, rfl, rfl⟩
  unfold fib_path_cmp fib_path_cmp_i fib_path_copy
  cases hp : p.fp_payload <;>
    simp_all [ip46_address_cmp_self, hc]

/-- C8 witness: copy compared with its source at a concrete recursive
path. -/
theorem copy_hash_cmp_unresolved_witness :
    fib_path_cmp envTrivial (fib_path_copy pRecHost 7) pRecHost = some 0 :=
  (copy_hash_cmp_unresolved envTrivial pRecHost 7
    (fun i => by simp [envTrivial])).2.1
